import Mathlib

/-!
Shallow embedding of `langchain/tools/base.py`: the tool invocation contract
(schema validation, input coercion, sync/async execution, lifecycle callbacks)
and the schema inferencer (`create_schema_from_function`), together with
theorems settling the specification claims about them.

Python values are modelled by `Value` (the fragment only manipulates ints and
strings), pydantic field declarations by `FieldSpec`, a pydantic model class by
its ordered field list (`Schema`), and exceptions by the inductive `PyErr`.
Exception identity (Python object identity for the purposes of re-raising the
same exception) is modelled by equality of `PyErr` values; distinct user
exceptions are distinguished by a numeric tag.
-/

/-- The Python value types occurring in this fragment. `internal` stands for
the pydantic-internal types of the placeholder fields that
`validate_arguments` injects (`args`, `kwargs`, `v__duplicate_kwargs`); these
are stripped by `get_filtered_args` before any validation, so their exact
types never matter. -/
inductive PyType where
  | int
  | str
  | internal
deriving DecidableEq, Repr

/-- Runtime values flowing through the tools in this fragment; `vNone` is
Python's `None` (it appears as the pydantic `ModelField.default` of required
fields, which `_create_subset_model` reads back as a default value). -/
inductive Value where
  | vInt (n : Int)
  | vStr (s : String)
  | vNone
deriving DecidableEq, Repr

/-- One pydantic model field: name, declared type, and optional default
(`none` means the field is required). -/
structure FieldSpec where
  name : String
  ptype : PyType
  default : Option Value
deriving DecidableEq, Repr

/-- A pydantic model class (`args_schema`), as its ordered list of fields. -/
abbrev Schema := List FieldSpec

/-- The exceptions raised in this fragment. `exception n` stands for an
arbitrary user exception object (distinct tags model distinct objects). -/
inductive PyErr where
  /-- pydantic `ValidationError`. -/
  | validation
  /-- `StopIteration` from `next(iter(...))` on an empty field dict. -/
  | stopIteration
  /-- `NotImplementedError("Tool does not support async")`. -/
  | notImplemented
  /-- `AssertionError` from the docstring assert in `from_function`. -/
  | assertionError
  /-- `KeyboardInterrupt` (the external interrupt the `except` clause names). -/
  | keyboardInterrupt
  /-- Any other exception raised by the wrapped function. -/
  | exception (tag : Nat)
deriving DecidableEq, Repr

/-- Python `str.strip()`: remove leading and trailing whitespace. -/
def pyStrip (s : String) : String :=
  ⟨((s.data.dropWhile Char.isWhitespace).reverse.dropWhile Char.isWhitespace).reverse⟩

/-- Python `str.upper()` (ASCII, which covers this fragment's examples). -/
def pyUpper (s : String) : String :=
  ⟨s.data.map Char.toUpper⟩

/-- The numeric value of a list of decimal digit characters, if all are
digits. -/
def digitsToNat? (l : List Char) : Option Nat :=
  match l with
  | [] => none
  | _ =>
      if l.all Char.isDigit then
        some (l.foldl (fun acc c => acc * 10 + (c.toNat - 48)) 0)
      else none

/-- Python `int(s)` on a string: an optional leading sign followed by
decimal digits; anything else raises (here: `none`). -/
def strToInt? (s : String) : Option Int :=
  match s.data with
  | '-' :: rest => (digitsToNat? rest).map (fun n => -(n : Int))
  | '+' :: rest => (digitsToNat? rest).map (fun n => (n : Int))
  | l => (digitsToNat? l).map (fun n => (n : Int))

/-- Python `str()` of a value: `str("hi") = "hi"`, `str(-5) = "-5"`. -/
def pyStr : Value → String
  | .vStr s => s
  | .vInt n => toString n
  | .vNone => "None"

/-- Python `repr()` of a value, as it appears inside `str()` of a dict. -/
def pyRepr : Value → String
  | .vStr s => "'" ++ s ++ "'"
  | .vInt n => toString n
  | .vNone => "None"

/-- The raw tool input: `Union[str, Dict]`. -/
inductive ToolInput where
  | str (s : String)
  | dict (m : List (String × Value))
deriving DecidableEq, Repr

/-- `tool_input if isinstance(tool_input, str) else str(tool_input)` — the
string handed to `on_tool_start` (lines 233 and 271 of base.py). -/
def strOfToolInput : ToolInput → String
  | .str s => s
  | .dict m =>
      "\x7b" ++ String.intercalate ", "
        (m.map (fun kv => "'" ++ kv.1 ++ "': " ++ pyRepr kv.2)) ++ "\x7d"

/-- Key lookup in a Python dict modelled as an association list. -/
def lookupKV (k : String) : List (String × Value) → Option Value
  | [] => none
  | kv :: rest => if kv.1 = k then some kv.2 else lookupKV k rest

/-- pydantic v1 field coercion: an `int` field accepts an int or a numeric
string, a `str` field accepts a string or an int (coerced via `str()`).
`None` is rejected by a field validated through its declared type (the
`allow_none` relaxation applies only to fields declared with a `None`
default, and no claim validates a `None` value against such a field). -/
def coerce : PyType → Value → Option Value
  | .int, .vInt n => some (.vInt n)
  | .int, .vStr s => (strToInt? s).map Value.vInt
  | .str, .vStr s => some (.vStr s)
  | .str, .vInt n => some (.vStr (toString n))
  | _, _ => none

/-- `input_args.validate(d)`: validate a dict against a pydantic model.
Each declared field is taken from the input (coerced to its declared type) or
from its default; a missing required field or an uncoercible value raises
`ValidationError`. Extra keys are ignored (pydantic v1 default behaviour for
`create_model` models). On success the validated argument binding (the model
instance's field assignment) is returned. -/
def validateFields : Schema → List (String × Value) → Except PyErr (List (String × Value))
  | [], _ => .ok []
  | f :: fs, input =>
      match lookupKV f.name input with
      | some v =>
          match coerce f.ptype v with
          | some v' => (validateFields fs input).map (fun rest => (f.name, v') :: rest)
          | none => .error .validation
      | none =>
          match f.default with
          | some d => (validateFields fs input).map (fun rest => (f.name, d) :: rest)
          | none => .error .validation

/-- `BaseTool._parse_input` (base.py lines 156-168). A string input is
validated as `{first_field_name: the_string}` where `first_field_name` is
`next(iter(input_args.__fields__.keys()))` — on a zero-field schema that
`next` raises `StopIteration`. A dict input is validated directly. With no
schema, no validation happens. The returned binding is the model instance
produced by `validate` (`none` when no validation was performed); the Python
method discards it and returns `None`, raising on failure. -/
def parse_input (args_schema : Option Schema) (tool_input : ToolInput) :
    Except PyErr (Option (List (String × Value))) :=
  match tool_input with
  | .str s =>
      match args_schema with
      | none => .ok none
      | some [] => .error .stopIteration
      | some (key0 :: rest) =>
          (validateFields (key0 :: rest) [(key0.name, Value.vStr s)]).map some
  | .dict m =>
      match args_schema with
      | none => .ok none
      | some input_args => (validateFields input_args m).map some

/-- `BaseTool._to_args_and_kwargs` (lines 203-209): a string input becomes a
single positional argument, a dict input becomes the keyword arguments. -/
def to_args_and_kwargs : ToolInput → List Value × List (String × Value)
  | .str s => ([Value.vStr s], [])
  | .dict m => ([], m)

/-- The verbosity resolution of `run`/`arun` (lines 222-225 and 261-264):
`verbose_ = verbose if (not self.verbose and verbose is not None) else self.verbose`. -/
def resolveVerbose (selfVerbose : Bool) (verbose : Option Bool) : Bool :=
  match verbose with
  | some v => if !selfVerbose then v else selfVerbose
  | none => selfVerbose

deriving instance DecidableEq for Except

/-! ## The tool invoker: `BaseTool.run` and `BaseTool.arun`

The lifecycle notifications emitted to the configured callback manager are
recorded as an event trace, and the call actually made into the underlying
implementation (`_run`/`_arun`) is recorded explicitly, so that claims about
"the function was / was not invoked, with which arguments" are statable. -/

/-- A lifecycle notification sent to the callback manager. `toolStart`
carries the tool's name, description and the string form of the input
(`on_tool_start`, lines 231-236 / 269-274); `toolEnd` carries `str(observation)`
(`on_tool_end`, line 247 / 286-288); `toolError` carries the exception object
(`on_tool_error`, line 245 / 284). -/
inductive Event where
  | toolStart (name description inputStr : String)
  | toolEnd (output : String)
  | toolError (e : PyErr)
deriving DecidableEq, Repr

/-- The fields of `BaseTool` relevant to the invocation contract. -/
structure BaseTool where
  name : String
  description : String
  args_schema : Option Schema
  return_direct : Bool := false
  verbose : Bool := false

/-- The concrete `_run`/`_arun` implementation of a tool subclass:
whether its signature declares a `run_manager` parameter
(`inspect.signature(...).parameters.get("run_manager")`, line 230 / 268), and
its behaviour as a function of the positional arguments, the keyword
arguments, and whether `run_manager=` was actually passed on the call. -/
structure ToolImpl where
  accepts_run_manager : Bool
  call : List Value → List (String × Value) → Bool → Except PyErr Value

/-- The observable outcome of one `run`/`arun` call: the notification trace,
the call made into `_run`/`_arun` (`none` when the function was never
invoked), the effective verbosity handed to the callback-manager
configuration (`none` when execution never got that far), and the value
returned or the exception propagated to the caller. -/
structure RunOutcome where
  events : List Event
  callMade : Option (List Value × List (String × Value) × Bool)
  verboseUsed : Option Bool
  result : Except PyErr Value
deriving DecidableEq, Repr

/-- `BaseTool.run` (base.py lines 211-248): parse/validate the input (raising
before any other effect on failure), resolve verbosity, emit `on_tool_start`,
call `_run` on the coerced arguments (passing `run_manager` exactly when the
signature declares it), then either emit `on_tool_error` with the caught
exception and re-raise it unchanged, or emit `on_tool_end` with
`str(observation)` and return the raw observation. -/
def BaseTool.run (t : BaseTool) (impl : ToolImpl) (tool_input : ToolInput)
    (verbose : Option Bool) (kwargs : List (String × Value)) : RunOutcome :=
  match parse_input t.args_schema tool_input with
  | .error e => ⟨[], none, none, .error e⟩
  | .ok _ =>
      let verbose_ := resolveVerbose t.verbose verbose
      let new_arg_supported := impl.accepts_run_manager
      let startEvent := Event.toolStart t.name t.description (strOfToolInput tool_input)
      let tool_args := (to_args_and_kwargs tool_input).1
      let tool_kwargs := (to_args_and_kwargs tool_input).2
      match impl.call tool_args tool_kwargs new_arg_supported with
      | .error e =>
          ⟨[startEvent, Event.toolError e],
            some (tool_args, tool_kwargs, new_arg_supported), some verbose_, .error e⟩
      | .ok observation =>
          ⟨[startEvent, Event.toolEnd (pyStr observation)],
            some (tool_args, tool_kwargs, new_arg_supported), some verbose_, .ok observation⟩

/-- `BaseTool.arun` (base.py lines 250-289). Identical to `run` except on the
no-`run_manager` branch (line 281): there `_arun` is called as
`await self._arun(*tool_args, **kwargs)` — the extra keyword arguments of the
`arun` call itself, not `tool_kwargs` from the input. -/
def BaseTool.arun (t : BaseTool) (impl : ToolImpl) (tool_input : ToolInput)
    (verbose : Option Bool) (kwargs : List (String × Value)) : RunOutcome :=
  match parse_input t.args_schema tool_input with
  | .error e => ⟨[], none, none, .error e⟩
  | .ok _ =>
      let verbose_ := resolveVerbose t.verbose verbose
      let new_arg_supported := impl.accepts_run_manager
      let startEvent := Event.toolStart t.name t.description (strOfToolInput tool_input)
      let tool_args := (to_args_and_kwargs tool_input).1
      let tool_kwargs := (to_args_and_kwargs tool_input).2
      let callKwargs := if new_arg_supported then tool_kwargs else kwargs
      match impl.call tool_args callKwargs new_arg_supported with
      | .error e =>
          ⟨[startEvent, Event.toolError e],
            some (tool_args, callKwargs, new_arg_supported), some verbose_, .error e⟩
      | .ok observation =>
          ⟨[startEvent, Event.toolEnd (pyStr observation)],
            some (tool_args, callKwargs, new_arg_supported), some verbose_, .ok observation⟩

/-! ## Python callables and the schema inferencer -/

/-- One parameter of a Python function's signature: its name, its type
annotation, and its default value if any. (All parameters in this fragment's
examples are annotated, as `validate_arguments`-based inference presumes.) -/
structure PyParam where
  name : String
  ptype : PyType
  default : Option Value
deriving DecidableEq, Repr

/-- How `inspect` renders a type annotation inside `str(signature(func))`. -/
def typeStr : PyType → String
  | .int => "int"
  | .str => "str"
  | .internal => "object"

/-- The signature-level description of a Python function: `__name__`, its
parameters, its return annotation, and `__doc__`. -/
structure PyFunction where
  fname : String
  params : List PyParam
  ret : Option PyType
  docstring : Option String
deriving DecidableEq, Repr

/-- How `inspect` renders one parameter inside `str(signature(func))`,
e.g. `a: int` or `a: int = 3`. -/
def PyParam.render (p : PyParam) : String :=
  p.name ++ ": " ++ typeStr p.ptype ++
    (match p.default with
     | some v => " = " ++ pyRepr v
     | none => "")

/-- Python `str(inspect.signature(func))`: the parenthesised parameter list,
followed by ` -> <ret>` when the function has a return annotation —
e.g. `(a: int, b: int) -> int`. -/
def sigStr (f : PyFunction) : String :=
  "(" ++ String.intercalate ", " (f.params.map PyParam.render) ++ ")" ++
    (match f.ret with
     | some t => " -> " ++ typeStr t
     | none => "")

/-- A callable as the tool invoker sees it: its signature (used by the
reflection checks and by `from_function`) and its runtime behaviour. The
third argument of `call` is the `callbacks=` keyword when the invoker injects
it (`none` = not injected; `some none` = injected as `None`;
`some (some ())` = injected as `run_manager.get_child()`). -/
structure PyCallable where
  sig : PyFunction
  call : List Value → List (String × Value) → Option (Option Unit) → Except PyErr Value

/-- `signature(func).parameters.get("callbacks")` as a Boolean: whether the
callable's signature declares a `callbacks` parameter. -/
def supportsCallbacks (f : PyFunction) : Bool :=
  f.params.any (fun p => p.name = "callbacks")

/-- The placeholder virtual fields `pydantic.validate_arguments` adds to its
inferred model beside the function's own parameters (`args`, `kwargs`,
`v__duplicate_kwargs`); they are exactly what `get_filtered_args` strips. -/
def placeholder_fields : List FieldSpec :=
  [⟨"args", .internal, some .vNone⟩,
   ⟨"kwargs", .internal, some .vNone⟩,
   ⟨"v__duplicate_kwargs", .internal, some .vNone⟩]

/-- `validate_arguments(func).model`: a pydantic model with one field per
declared parameter (type and default preserved) plus the placeholder virtual
fields. -/
def inferredModel (func : PyFunction) : Schema :=
  func.params.map (fun p => FieldSpec.mk p.name p.ptype p.default) ++ placeholder_fields

/-- `get_filtered_args` (base.py lines 91-98): restrict the inferred model's
properties to the keys of `signature(func).parameters`. -/
def get_filtered_args (inferred_model : Schema) (func : PyFunction) :
    List (String × FieldSpec) :=
  func.params.filterMap (fun p =>
    (inferred_model.find? (fun f => f.name = p.name)).map (fun fs => (p.name, fs)))

/-- `_create_subset_model` (base.py lines 76-88): a model with only the named
subset of `model`'s fields, built by passing each field's
`(model.__fields__[name].type_, model.__fields__[name].default)` to
`create_model`. pydantic v1 sets `ModelField.default` to `None` for required
fields, so every subset field ends up with an explicit default — `None` for
the originally required ones — and is therefore optional: requiredness is
erased. -/
def create_subset_model (_name : String) (model : Schema) (field_names : List String) :
    Schema :=
  field_names.filterMap (fun fn =>
    (model.find? (fun f => f.name = fn)).map
      (fun f => FieldSpec.mk f.name f.ptype (some (f.default.getD Value.vNone))))

/-- `create_schema_from_function` (base.py lines 101-111): infer the model
from the function, strip the placeholder fields, and build the subset model
named `f"{model_name}Schema"`. -/
def create_schema_from_function (model_name : String) (func : PyFunction) : Schema :=
  let inferred_model := inferredModel func
  let filtered_args := get_filtered_args inferred_model func
  create_subset_model (model_name ++ "Schema") inferred_model (filtered_args.map (·.1))

/-! ## StructuredTool -/

/-- `StructuredTool` (base.py lines 296-382): a tool owning a required
synchronous function and an optional coroutine. Its `args_schema` is
mandatory. -/
structure StructuredTool where
  name : String
  description : String
  args_schema : Schema
  return_direct : Bool := false
  verbose : Bool := false
  func : PyCallable
  coroutine : Option PyCallable

/-- The `BaseTool` view of a structured tool. -/
def StructuredTool.toBase (st : StructuredTool) : BaseTool :=
  ⟨st.name, st.description, some st.args_schema, st.return_direct, st.verbose⟩

/-- `StructuredTool._run` (lines 312-328) as a `ToolImpl`. Its signature
declares `run_manager`, so `run` always passes it. The body forwards
`callbacks=run_manager.get_child() if run_manager else None` exactly when the
wrapped function's signature declares a `callbacks` parameter. -/
def StructuredTool.runImpl (st : StructuredTool) : ToolImpl where
  accepts_run_manager := true
  call := fun args kwargs rmPassed =>
    if supportsCallbacks st.func.sig then
      st.func.call args kwargs (some (if rmPassed then some () else none))
    else
      st.func.call args kwargs none

/-- `StructuredTool._arun` (lines 330-350) as a `ToolImpl`. Its signature
declares `run_manager`, so `arun` always passes it. With no coroutine it
raises `NotImplementedError("Tool does not support async")`; otherwise it
awaits the coroutine, forwarding `callbacks` exactly when the coroutine's
signature declares that parameter. -/
def StructuredTool.arunImpl (st : StructuredTool) : ToolImpl where
  accepts_run_manager := true
  call := fun args kwargs rmPassed =>
    match st.coroutine with
    | some c =>
        if supportsCallbacks c.sig then
          c.call args kwargs (some (if rmPassed then some () else none))
        else
          c.call args kwargs none
    | none => .error .notImplemented

/-- `StructuredTool.run`, via the inherited `BaseTool.run`. -/
def StructuredTool.run (st : StructuredTool) (tool_input : ToolInput)
    (verbose : Option Bool) (kwargs : List (String × Value)) : RunOutcome :=
  BaseTool.run st.toBase st.runImpl tool_input verbose kwargs

/-- `StructuredTool.arun`, via the inherited `BaseTool.arun`. -/
def StructuredTool.arun (st : StructuredTool) (tool_input : ToolInput)
    (verbose : Option Bool) (kwargs : List (String × Value)) : RunOutcome :=
  BaseTool.arun st.toBase st.arunImpl tool_input verbose kwargs

/-- `StructuredTool.from_function` (base.py lines 352-382): default the name
to `func.__name__` and the description to `func.__doc__` (the `assert` makes
a missing description a hard `AssertionError`), prefix the description with
`f"{name}{signature(func)} - {description.strip()}"`, and use the supplied
schema or, with `infer_schema`, the inferred one. Passing no schema with
inference disabled fails pydantic's required-field validation for
`args_schema`. -/
def StructuredTool.from_function (func : PyCallable) (name : Option String)
    (description : Option String) (return_direct : Bool)
    (args_schema : Option Schema) (infer_schema : Bool)
    (coroutine : Option PyCallable := none) : Except PyErr StructuredTool :=
  let name_ := name.getD func.sig.fname
  match description <|> func.sig.docstring with
  | none => .error .assertionError
  | some d =>
      let description_ := name_ ++ sigStr func.sig ++ " - " ++ pyStrip d
      let schema_ :=
        match args_schema with
        | some s => some s
        | none =>
            if infer_schema then
              some (create_schema_from_function (name_ ++ "Schema") func.sig)
            else none
      match schema_ with
      | none => .error .validation
      | some s =>
          .ok ⟨name_, description_, s, return_direct, false, func, coroutine⟩

/-! ## Concrete fixtures used by witnesses and counterexamples -/

/-- `def add(a: int, b: int) -> int: "Adds two numbers."` — the spec's
running example for schema inference. -/
def addCallable : PyCallable where
  sig := ⟨"add", [⟨"a", .int, none⟩, ⟨"b", .int, none⟩], some .int,
          some "Adds two numbers."⟩
  call := fun args kwargs _ =>
    let geta := match args[0]? with
      | some v => some v
      | none => lookupKV "a" kwargs
    let getb := match args[1]? with
      | some v => some v
      | none => lookupKV "b" kwargs
    match geta, getb with
    | some (.vInt a), some (.vInt b) => .ok (.vInt (a + b))
    | _, _ => .error (.exception 0)

/-- The same function without a docstring, for the hard-failure branch of
`from_function`. -/
def addNoDoc : PyCallable :=
  { addCallable with sig := { addCallable.sig with docstring := none } }

/-- `def upper(text: str) -> str: return text.upper()` — the spec's
end-to-end example (§8.7). -/
def upperCallable : PyCallable where
  sig := ⟨"upper", [⟨"text", .str, none⟩], some .str, some "Uppercase the text."⟩
  call := fun args kwargs _ =>
    let gett := match args[0]? with
      | some v => some v
      | none => lookupKV "text" kwargs
    match gett with
    | some (.vStr s) => .ok (.vStr (pyUpper s))
    | _ => .error (.exception 0)

/-- A structured tool wrapping `upper` with its inferred one-field schema
(optional with default `None`, as the subset-model construction makes it) and
no coroutine (built the way `from_function` builds it). -/
def upperTool : StructuredTool where
  name := "upper"
  description := "upper(text: str) -> str - Uppercase the text."
  args_schema := [⟨"text", .str, some .vNone⟩]
  func := upperCallable
  coroutine := none

/-- A schemaless tool whose implementation always raises user exception 7,
for the error-propagation witnesses. -/
def failTool : BaseTool := ⟨"fail", "always fails", none, false, false⟩

/-- Implementation raising user exception 7, with no `run_manager` parameter. -/
def failImpl : ToolImpl := ⟨false, fun _ _ _ => .error (.exception 7)⟩

/-- A schemaless echo tool for the no-validation and kwargs-forwarding
witnesses. -/
def echoTool : BaseTool := ⟨"echo", "echoes", none, false, false⟩

/-- Implementation returning its first positional argument (or `""`), with no
`run_manager` parameter. -/
def echoImpl : ToolImpl := ⟨false, fun args _ _ => .ok (args.headD (.vStr ""))⟩

/-- A tool whose schema declares two fields, `a: str` (required) and
`b: int = 0` (defaulted). -/
def twoFieldTool : BaseTool :=
  ⟨"pair", "two-field tool", some [⟨"a", .str, none⟩, ⟨"b", .int, some (.vInt 0)⟩],
   false, false⟩

/-- A tool whose schema declares the single required field `n: int`. -/
def intTool : BaseTool := ⟨"toint", "parses an int", some [⟨"n", .int, none⟩], false, false⟩

/-! ## Helper lemmas -/

/-- Validation fails whenever some declared field is required (no default)
and absent from the input. -/
theorem validateFields_error_of_missing_required (fs : Schema)
    (input : List (String × Value)) (g : FieldSpec) (hg : g ∈ fs)
    (hl : lookupKV g.name input = none) (hd : g.default = none) :
    validateFields fs input = .error .validation := by
  induction fs with
  | nil => cases hg
  | cons f fs ih =>
      rcases List.mem_cons.mp hg with hgf | hgtail
      · subst hgf
        simp [validateFields, hl, hd]
      · unfold validateFields
        cases hlk : lookupKV f.name input with
        | some v =>
            cases hc : coerce f.ptype v with
            | some v' => simp [hlk, hc, ih hgtail, Except.map]
            | none => simp [hlk, hc]
        | none =>
            cases hdf : f.default with
            | some d => simp [hlk, hdf, ih hgtail, Except.map]
            | none => simp [hlk, hdf]

/-- The effective verbosity recorded by `run` once validation has passed. -/
theorem run_verboseUsed (t : BaseTool) (impl : ToolImpl) (ti : ToolInput)
    (cv : Option Bool) (kwargs : List (String × Value))
    (b : Option (List (String × Value)))
    (hparse : parse_input t.args_schema ti = .ok b) :
    (t.run impl ti cv kwargs).verboseUsed = some (resolveVerbose t.verbose cv) := by
  simp only [BaseTool.run, hparse]
  split <;> rfl

/-- The effective verbosity recorded by `arun` once validation has passed. -/
theorem arun_verboseUsed (t : BaseTool) (impl : ToolImpl) (ti : ToolInput)
    (cv : Option Bool) (kwargs : List (String × Value))
    (b : Option (List (String × Value)))
    (hparse : parse_input t.args_schema ti = .ok b) :
    (t.arun impl ti cv kwargs).verboseUsed = some (resolveVerbose t.verbose cv) := by
  simp only [BaseTool.arun, hparse]
  split <;> rfl

/-! ## Claims -/

/-- Claim C1: for a tool whose schema declares exactly one field, parsing a
bare string input performs exactly the same validation — and produces exactly
the same validated-argument binding — as parsing a mapping that assigns that
string to the single field's name: `_parse_input` assigns the string to the
single field's name before validating. -/
theorem parse_input_single_field_string_eq_dict (f : FieldSpec) (s : String) :
    parse_input (some [f]) (ToolInput.str s) =
      parse_input (some [f]) (ToolInput.dict [(f.name, Value.vStr s)]) := by
  simp [parse_input]

/-- Claim C2 (amended): `arun` on a structured tool with no coroutine does
raise the not-supported error and re-raises it to the caller unchanged — but
only after the notification channel's start hook has been invoked; an error
notification carrying the not-supported error is also emitted before the
error propagates. -/
theorem arun_without_coroutine (st : StructuredTool) (ti : ToolInput)
    (cv : Option Bool) (kwargs : List (String × Value))
    (b : Option (List (String × Value)))
    (hco : st.coroutine = none)
    (hparse : parse_input (some st.args_schema) ti = .ok b) :
    (st.arun ti cv kwargs).result = .error .notImplemented ∧
    (st.arun ti cv kwargs).events =
      [Event.toolStart st.name st.description (strOfToolInput ti),
       Event.toolError .notImplemented] := by
  unfold StructuredTool.arun
  simp only [BaseTool.arun, StructuredTool.toBase, hparse, StructuredTool.arunImpl, hco]
  constructor <;> trivial

/-- Witness for C2 (amended) at the concrete coroutine-less `upperTool`. -/
theorem arun_without_coroutine_witness :
    (StructuredTool.arun upperTool (ToolInput.str "hi") none []).result =
        .error .notImplemented ∧
    (StructuredTool.arun upperTool (ToolInput.str "hi") none []).events =
      [Event.toolStart upperTool.name upperTool.description
        (strOfToolInput (ToolInput.str "hi")),
       Event.toolError .notImplemented] :=
  arun_without_coroutine upperTool (ToolInput.str "hi") none []
    (some [("text", Value.vStr "hi")]) rfl (by decide)

/-- Counterexample for C2 as stated: `upperTool` has no coroutine, yet
`arun("hi")` does invoke the notification channel's start hook — the first
event of the call is a tool-start notification, so the failure is not raised
before all notification side effects. -/
theorem arun_without_coroutine_cex :
    (StructuredTool.arun upperTool (ToolInput.str "hi") none []).events.head? =
      some (Event.toolStart "upper"
        "upper(text: str) -> str - Uppercase the text." "hi") ∧
    (StructuredTool.arun upperTool (ToolInput.str "hi") none []).result =
      .error .notImplemented := by decide

/-- Claim C3: when the underlying function raises any exception (external
interrupts included), `run` emits the error notification exactly once with
that very exception object, emits no end notification, and re-raises the same
exception object to the caller unchanged. -/
theorem run_error_notifies_once_and_reraises (t : BaseTool) (impl : ToolImpl)
    (ti : ToolInput) (cv : Option Bool) (kwargs : List (String × Value))
    (b : Option (List (String × Value))) (e : PyErr)
    (hparse : parse_input t.args_schema ti = .ok b)
    (hcall : impl.call (to_args_and_kwargs ti).1 (to_args_and_kwargs ti).2
        impl.accepts_run_manager = .error e) :
    (t.run impl ti cv kwargs).events =
      [Event.toolStart t.name t.description (strOfToolInput ti),
       Event.toolError e] ∧
    (t.run impl ti cv kwargs).result = .error e := by
  simp only [BaseTool.run, hparse, hcall]
  constructor <;> trivial

/-- Witness for C3 at a tool whose function always raises user exception 7. -/
theorem run_error_notifies_once_and_reraises_witness :
    (failTool.run failImpl (ToolInput.str "x") none []).events =
      [Event.toolStart failTool.name failTool.description
        (strOfToolInput (ToolInput.str "x")),
       Event.toolError (.exception 7)] ∧
    (failTool.run failImpl (ToolInput.str "x") none []).result =
      .error (.exception 7) :=
  run_error_notifies_once_and_reraises failTool failImpl (ToolInput.str "x")
    none [] none (.exception 7) rfl rfl

/-- Counterexample for C4 as stated: a tool whose schema declares two fields,
the second of which has a default, accepts a bare string without any
invalid-input error — the string is bound to the first field and the default
fills the second, and `run` succeeds. -/
theorem bare_string_two_fields_no_error_cex :
    parse_input twoFieldTool.args_schema (ToolInput.str "hi") =
      .ok (some [("a", Value.vStr "hi"), ("b", Value.vInt 0)]) ∧
    (twoFieldTool.run echoImpl (ToolInput.str "hi") none []).result =
      .ok (Value.vStr "hi") := by decide

/-- Claim C4 (amended): a bare string given to a tool whose schema declares
more than one field raises the invalid-input error whenever some field other
than the first is required (has no default); with zero declared fields the
first-field lookup itself fails with an iteration error (`StopIteration`),
not the invalid-input error. (When every other field is defaulted and the
string fits the first field, validation succeeds — see the counterexample.) -/
theorem bare_string_invalid_input_amended (f g : FieldSpec) (rest : Schema)
    (s : String) (hg : g ∈ rest) (hn : g.name ≠ f.name) (hd : g.default = none) :
    parse_input (some (f :: rest)) (ToolInput.str s) = .error .validation ∧
    parse_input (some []) (ToolInput.str s) = .error .stopIteration := by
  refine ⟨?_, rfl⟩
  have hfg : f.name ≠ g.name := fun h => hn h.symm
  have hl : lookupKV g.name [(f.name, Value.vStr s)] = none := by
    simp [lookupKV, hfg]
  have herr := validateFields_error_of_missing_required (f :: rest)
    [(f.name, Value.vStr s)] g (List.mem_cons_of_mem f hg) hl hd
  simp [parse_input, herr, Except.map]

/-- Witness for C4 (amended) with first field `a: str` and required second
field `b: int`. -/
theorem bare_string_invalid_input_amended_witness :
    parse_input (some [⟨"a", .str, none⟩, ⟨"b", .int, none⟩]) (ToolInput.str "hi") =
      .error .validation ∧
    parse_input (some []) (ToolInput.str "hi") = .error .stopIteration :=
  bare_string_invalid_input_amended ⟨"a", .str, none⟩ ⟨"b", .int, none⟩
    [⟨"b", .int, none⟩] "hi" (by decide) (by decide) rfl

/-- Claim C5: on an input that validates and on which the underlying function
succeeds, `run` emits exactly one start notification followed by exactly one
end notification carrying `str(observation)` — in that order, with no error
notification — and returns the raw, non-stringified observation to the
caller. -/
theorem run_success_start_end_raw_result (t : BaseTool) (impl : ToolImpl)
    (ti : ToolInput) (cv : Option Bool) (kwargs : List (String × Value))
    (b : Option (List (String × Value))) (v : Value)
    (hparse : parse_input t.args_schema ti = .ok b)
    (hcall : impl.call (to_args_and_kwargs ti).1 (to_args_and_kwargs ti).2
        impl.accepts_run_manager = .ok v) :
    (t.run impl ti cv kwargs).events =
      [Event.toolStart t.name t.description (strOfToolInput ti),
       Event.toolEnd (pyStr v)] ∧
    (t.run impl ti cv kwargs).result = .ok v := by
  simp only [BaseTool.run, hparse, hcall]
  constructor <;> trivial

/-- Witness for C5: the spec's end-to-end example — a structured tool
wrapping `upper` invoked with `{"text": "hi"}` returns the raw `"HI"` and
emits start then end (`"HI"`) and nothing else. -/
theorem run_success_start_end_raw_result_witness :
    (upperTool.toBase.run upperTool.runImpl (ToolInput.dict [("text", Value.vStr "hi")])
        none []).events =
      [Event.toolStart upperTool.toBase.name upperTool.toBase.description
        (strOfToolInput (ToolInput.dict [("text", Value.vStr "hi")])),
       Event.toolEnd (pyStr (Value.vStr "HI"))] ∧
    (upperTool.toBase.run upperTool.runImpl (ToolInput.dict [("text", Value.vStr "hi")])
        none []).result = .ok (Value.vStr "HI") :=
  run_success_start_end_raw_result upperTool.toBase upperTool.runImpl
    (ToolInput.dict [("text", Value.vStr "hi")]) none []
    (some [("text", Value.vStr "hi")]) (Value.vStr "HI") (by decide) (by decide)

/-- Claim C6: on the asynchronous path, when the implementation's signature
does not declare `run_manager`, the call actually made into `_arun` passes
the `arun` call's extra keyword arguments verbatim and omits the run-tracking
handle. -/
theorem arun_forwards_extra_kwargs (t : BaseTool) (impl : ToolImpl)
    (ti : ToolInput) (cv : Option Bool) (kwargs : List (String × Value))
    (b : Option (List (String × Value)))
    (hns : impl.accepts_run_manager = false)
    (hparse : parse_input t.args_schema ti = .ok b) :
    (t.arun impl ti cv kwargs).callMade =
      some ((to_args_and_kwargs ti).1, kwargs, false) := by
  simp only [BaseTool.arun, hparse, hns]
  split <;> rfl

/-- Witness for C6: a dict-input `arun` call with an extra keyword argument
on a tool whose implementation lacks `run_manager`; the extra kwarg is what
reaches the implementation. -/
theorem arun_forwards_extra_kwargs_witness :
    (echoTool.arun echoImpl (ToolInput.dict [("x", Value.vInt 1)]) none
        [("color_kwarg", Value.vStr "red")]).callMade =
      some ((to_args_and_kwargs (ToolInput.dict [("x", Value.vInt 1)])).1,
        [("color_kwarg", Value.vStr "red")], false) :=
  arun_forwards_extra_kwargs echoTool echoImpl (ToolInput.dict [("x", Value.vInt 1)])
    none [("color_kwarg", Value.vStr "red")] none rfl rfl

/-- Claim C7: for both `run` and `arun`, the effective verbosity is resolved
asymmetrically — a truthy tool-level flag always wins, and only when the
tool-level flag is false does a call-level value (when supplied) override it. -/
theorem effective_verbosity_resolution (t : BaseTool) (impl : ToolImpl)
    (ti : ToolInput) (cv : Option Bool) (kwargs : List (String × Value))
    (b : Option (List (String × Value)))
    (hparse : parse_input t.args_schema ti = .ok b) :
    (t.verbose = true →
      (t.run impl ti cv kwargs).verboseUsed = some true ∧
      (t.arun impl ti cv kwargs).verboseUsed = some true) ∧
    (t.verbose = false →
      (t.run impl ti cv kwargs).verboseUsed = some (cv.getD false) ∧
      (t.arun impl ti cv kwargs).verboseUsed = some (cv.getD false)) := by
  rw [run_verboseUsed t impl ti cv kwargs b hparse,
    arun_verboseUsed t impl ti cv kwargs b hparse]
  constructor <;> intro h <;> cases cv <;> simp [resolveVerbose, h]

/-- Witness for C7 at a verbose tool overriding a call-level `False`. -/
theorem effective_verbosity_resolution_witness :
    (({ failTool with verbose := true } : BaseTool).run failImpl
        (ToolInput.str "x") (some false) []).verboseUsed = some true ∧
    (({ failTool with verbose := true } : BaseTool).arun failImpl
        (ToolInput.str "x") (some false) []).verboseUsed = some true :=
  (effective_verbosity_resolution { failTool with verbose := true } failImpl
    (ToolInput.str "x") (some false) [] none rfl).1 rfl

/-- Counterexample for C8 as stated: the description `from_function` builds
for `add(a: int, b: int) -> int` does not begin with
`"add(a: int, b: int) - Adds two numbers."` — `str(signature(func))` includes
the return annotation, so the description starts
`"add(a: int, b: int) -> int - ..."`. -/
theorem from_function_add_description_cex :
    (StructuredTool.from_function addCallable none none false none true).map
      (fun t => "add(a: int, b: int) - Adds two numbers.".data.isPrefixOf
        t.description.data) = .ok false := by decide

/-- Claim C8 (amended): `from_function` on `add(a: int, b: int) -> int` with
docstring "Adds two numbers." yields a tool whose inferred schema has exactly
the integer fields `a` and `b` (the callable's parameters one-to-one, the
inference placeholders stripped) — though each made optional with default
`None`, because `_create_subset_model` reads the pydantic `ModelField.default`
of the required inferred fields, which is `None` — whose name is `"add"`, and
whose description begins `"add(a: int, b: int) -> int - Adds two numbers."`
(the rendered signature includes the return annotation); with no docstring
and no supplied description, construction fails hard with an assertion
error. -/
theorem from_function_add_amended :
    (StructuredTool.from_function addCallable none none false none true).map
        (fun t => (t.name, t.description, t.args_schema)) =
      .ok ("add", "add(a: int, b: int) -> int - Adds two numbers.",
        [⟨"a", .int, some .vNone⟩, ⟨"b", .int, some .vNone⟩]) ∧
    (StructuredTool.from_function addNoDoc none none false none true).map
        (fun t => t.name) = .error .assertionError := by decide

/-- Claim C9: when validation of the raw input fails, the invalid-input error
propagates before any other side effect — no notification is emitted, the
underlying function is never invoked, and execution never reaches verbosity
resolution; this holds for `run` and `arun` alike. -/
theorem invalid_input_is_atomic (t : BaseTool) (impl : ToolImpl)
    (ti : ToolInput) (cv : Option Bool) (kwargs : List (String × Value))
    (e : PyErr) (hparse : parse_input t.args_schema ti = .error e) :
    t.run impl ti cv kwargs = ⟨[], none, none, .error e⟩ ∧
    t.arun impl ti cv kwargs = ⟨[], none, none, .error e⟩ := by
  constructor <;> simp only [BaseTool.run, BaseTool.arun, hparse]

/-- Witness for C9: a single-field `n: int` schema rejects the bare string
`"abc"`, and both `run` and `arun` do nothing but raise. -/
theorem invalid_input_is_atomic_witness :
    intTool.run echoImpl (ToolInput.str "abc") none [] =
      ⟨[], none, none, .error .validation⟩ ∧
    intTool.arun echoImpl (ToolInput.str "abc") none [] =
      ⟨[], none, none, .error .validation⟩ :=
  invalid_input_is_atomic intTool echoImpl (ToolInput.str "abc") none []
    .validation (by decide)

/-- Claim C10: with no `args_schema`, `_parse_input` validates nothing — it
succeeds on every string or dict input — and both `run` and `arun` proceed to
the start notification and to invoking the underlying function. -/
theorem no_schema_skips_validation (t : BaseTool) (impl : ToolImpl)
    (ti : ToolInput) (cv : Option Bool) (kwargs : List (String × Value))
    (hschema : t.args_schema = none) :
    parse_input t.args_schema ti = .ok none ∧
    (t.run impl ti cv kwargs).callMade.isSome = true ∧
    (t.run impl ti cv kwargs).events.head? =
      some (Event.toolStart t.name t.description (strOfToolInput ti)) ∧
    (t.arun impl ti cv kwargs).callMade.isSome = true ∧
    (t.arun impl ti cv kwargs).events.head? =
      some (Event.toolStart t.name t.description (strOfToolInput ti)) := by
  have hp : parse_input t.args_schema ti = .ok none := by
    rw [hschema]; cases ti <;> rfl
  refine ⟨hp, ?_, ?_, ?_, ?_⟩ <;>
    simp only [BaseTool.run, BaseTool.arun, hp] <;> split <;> rfl

/-- Witness for C10 at the schemaless echo tool on a dict input. -/
theorem no_schema_skips_validation_witness :
    parse_input echoTool.args_schema (ToolInput.dict [("k", Value.vStr "v")]) =
      .ok none ∧
    (echoTool.run echoImpl (ToolInput.dict [("k", Value.vStr "v")]) none
        []).callMade.isSome = true ∧
    (echoTool.run echoImpl (ToolInput.dict [("k", Value.vStr "v")]) none
        []).events.head? =
      some (Event.toolStart echoTool.name echoTool.description
        (strOfToolInput (ToolInput.dict [("k", Value.vStr "v")]))) ∧
    (echoTool.arun echoImpl (ToolInput.dict [("k", Value.vStr "v")]) none
        []).callMade.isSome = true ∧
    (echoTool.arun echoImpl (ToolInput.dict [("k", Value.vStr "v")]) none
        []).events.head? =
      some (Event.toolStart echoTool.name echoTool.description
        (strOfToolInput (ToolInput.dict [("k", Value.vStr "v")]))) :=
  no_schema_skips_validation echoTool echoImpl
    (ToolInput.dict [("k", Value.vStr "v")]) none [] rfl
